import Mathlib

/-!
Verification of the finops_dashboard core against its specification.

The repository contains two partially divergent implementations of the same
responsibilities; unless noted otherwise the definitions below embed the
`fin/finops_dashboard` variant (the most complete one), and definitions for
the second variant (`src/src`, `fin/src`) carry a `Fin2`/`Src2` marker.

Numbers are modelled as rationals (the Python code uses floats; all claim
arithmetic is exact), pandas DataFrames as `Table` (ordered column names plus
rows of cells), and pandas NaN / non-numeric values as `Cell.null`.
-/

namespace FinOps

/-- A single DataFrame cell: a number, a string, or NaN/None (`null`). -/
inductive Cell where
  | num (q : ℚ)
  | str (s : String)
  | null
  deriving DecidableEq, Repr

/-- A pandas DataFrame: ordered named columns and rows of cells
(positional row order only, as in the source). -/
structure Table where
  cols : List String
  rows : List (List Cell)
  deriving DecidableEq, Repr

/-- `df.empty` in pandas: true when any axis has length 0. -/
def Table.isEmpty (t : Table) : Bool := t.rows.isEmpty || t.cols.isEmpty

/-- Position of a column name in the column list. -/
def Table.colIdx (t : Table) (c : String) : Nat := t.cols.indexOf c

/-- `c in df.columns`. -/
def Table.hasCol (t : Table) (c : String) : Bool := t.cols.contains c

/-- Cell of a row at a column position (missing positions read as NaN). -/
def cellAt (r : List Cell) (i : Nat) : Cell := r.getD i .null

/-- `pd.to_numeric(x, errors="coerce").fillna(0)` on one cell: numbers are
kept, anything else becomes 0. -/
def coerceCell : Cell → Cell
  | .num q => .num q
  | _ => .num 0

/-- Numeric reading of a cell (NaN/strings read as 0, matching the sources'
use of values after `to_numeric(...).fillna(0)`). -/
def cellQ : Cell → ℚ
  | .num q => q
  | _ => 0

/-- `df[c] = pd.to_numeric(df[c], errors="coerce").fillna(0)`: an in-place
write of the coerced column, visible to the caller of the enclosing function. -/
def coerceColumn (t : Table) (c : String) : Table :=
  { t with rows := t.rows.map fun r => r.set (t.colIdx c) (coerceCell (cellAt r (t.colIdx c))) }

/-! ## DataProcessor.calculate_percentage_delta
(src/fin/finops_dashboard/src/data_processor.py) -/

/-- `DataProcessor._safe_float`: `None` (and non-numeric input) becomes 0.0. -/
def safeFloat (v : Option ℚ) : ℚ := v.getD 0

/-- `DataProcessor.calculate_percentage_delta` (finops variant): percentage
change of `current` against `previous`, with the zero-previous cases clamped. -/
def calculate_percentage_delta (current_value previous_value : Option ℚ) : ℚ :=
  let c := safeFloat current_value
  let p := safeFloat previous_value
  if p = 0 ∧ c = 0 then 0
  else if p = 0 then (if c > 0 then 100 else -100)
  else (c - p) / p * 100

/-! ## Cached execution layer
(`_execute_snowpark_query_cached` in src/fin/finops_dashboard/src/data_fetcher.py:
`@st.cache_data(ttl=3600)` wrapped around `@handle_errors` wrapped around the
executor call; `handle_errors` is src/fin/finops_dashboard/src/utils.py). -/

/-- Outcome of one executor call (`session.sql(...)`): a table, or a raised
exception carrying a message. -/
inductive ExecOutcome where
  | ok (t : Table)
  | err (msg : String)

/-- `handle_errors` (src/utils.py): runs the wrapped call, catches any
exception, and returns `None` in its place. -/
def handle_errors (f : Unit → ExecOutcome) : Option Table :=
  match f () with
  | .ok t => some t
  | .err _ => none

/-- One `st.cache_data` entry: the stored return value of the wrapped function
(which, because of `handle_errors`, may be `none`) and its creation time. -/
structure CacheEntry where
  value : Option Table
  created_at : Nat
  deriving DecidableEq, Repr

/-- The process-wide `st.cache_data` store for one cached function, keyed by
the hash of the call's arguments. -/
abbrev CacheState := List (String × CacheEntry)

/-- One call of `_execute_snowpark_query_cached`, i.e. one pass through
`st.cache_data(ttl)` around `handle_errors(executor)`: a fresh entry for the
key is returned as stored without running the executor; otherwise
`handle_errors f` runs and its value (a table on success, `none` on a failure)
is stored with the current time. Freshness follows the documented lazy ttl
policy: an entry is stale once `now - created_at > ttl`. Returns
(value returned to the caller, store afterwards, whether the executor ran). -/
def cached_execute (st : CacheState) (now ttl : Nat) (key : String)
    (f : Unit → ExecOutcome) : Option Table × CacheState × Bool :=
  match st.lookup key with
  | some e =>
    if now - e.created_at ≤ ttl then (e.value, st, false)
    else
      let v := handle_errors f
      (v, (key, ⟨v, now⟩) :: st, true)
  | none =>
    let v := handle_errors f
    (v, (key, ⟨v, now⟩) :: st, true)

/-- `DataFetcher.fetch_metric_value` (finops variant), as a function of the
outcome of the underlying `fetch_data` call (`none` when fetching failed):
`df.iloc[0, 0]` when a non-empty table came back, else `None`. -/
def fetch_metric_value (fetched : Option Table) : Option Cell :=
  match fetched with
  | none => none
  | some df => if ¬df.isEmpty then some (cellAt (df.rows.headD []) 0) else none

/-! ## MetricEngine table operations
(src/fin/finops_dashboard/src/data_processor.py) -/

/-- Numeric sort key of a row: the value-column cell read as a number. -/
def rowKey (vi : Nat) (r : List Cell) : ℚ := cellQ (cellAt r vi)

/-- Row comparison used by `sort_values(by=value_col, ascending=False)`:
`a` sorts no later than `b` when `a`'s key is at least `b`'s. The sort itself
is `List.insertionSort`, which is stable — matching pandas' behaviour on the
sizes appearing below (numpy falls back to a stable insertion sort there). -/
def rowGE (vi : Nat) (a b : List Cell) : Prop := rowKey vi b ≤ rowKey vi a

instance (vi : Nat) : DecidableRel (rowGE vi) := fun _ _ =>
  inferInstanceAs (Decidable (_ ≤ _))

instance (vi : Nat) : IsTotal (List Cell) (rowGE vi) :=
  ⟨fun a b => le_total (rowKey vi b) (rowKey vi a)⟩

instance (vi : Nat) : IsTrans (List Cell) (rowGE vi) :=
  ⟨fun _ _ _ h1 h2 => le_trans h2 h1⟩

/-- The synthetic "Others" row produced by `pd.concat`: the name column holds
the label, the value column the folded sum, and any other column of the top-n
frame is filled with NaN by the concat alignment. -/
def othersRow (cols : List String) (name_col value_col other_label : String) (s : ℚ) :
    List Cell :=
  cols.map fun c =>
    if c = name_col then Cell.str other_label
    else if c = value_col then Cell.num s
    else Cell.null

/-- `DataProcessor.get_top_n_values` (finops variant). Returns the result
table together with the caller's table after the call: before sorting, the
source writes the coerced value column back into the caller's DataFrame
(`df[value_col] = pd.to_numeric(df[value_col], errors="coerce").fillna(0)`),
so the second component is `coerceColumn df value_col` on the main path. Note
the result is sorted by value again AFTER the "Others" row is appended. -/
def get_top_n_values (df : Table) (value_col name_col : String) (n : Nat)
    (other_label : String := "Others") : Table × Table :=
  if df.isEmpty || !df.hasCol value_col || !df.hasCol name_col then
    ({ cols := [name_col, value_col], rows := [] }, df)
  else
    let df1 := coerceColumn df value_col
    let vi := df1.colIdx value_col
    let sortedRows := List.insertionSort (rowGE vi) df1.rows
    let top_n := sortedRows.take n
    let result :=
      if n < sortedRows.length then
        top_n ++ [othersRow df1.cols name_col value_col other_label
          (((sortedRows.drop n).map (rowKey vi)).sum)]
      else top_n
    ({ cols := df1.cols, rows := List.insertionSort (rowGE vi) result }, df1)

/-- `Series.quantile(p)` on an already-sorted list, with pandas' default
linear interpolation: for `h = p * (len - 1)` the result is
`s[⌊h⌋] + (h - ⌊h⌋) * (s[⌊h⌋ + 1] - s[⌊h⌋])`. -/
def quantileSorted (s : List ℚ) (p : ℚ) : ℚ :=
  if s.isEmpty then 0
  else
    let h : ℚ := p * ((s.length : ℚ) - 1)
    let i : Nat := (⌊h⌋).toNat
    let lo := s.getD i 0
    let hi := s.getD (i + 1) lo
    lo + (h - (i : ℚ)) * (hi - lo)

/-- `Series.quantile(p)`: linear-interpolation percentile of the values. -/
def quantile (l : List ℚ) (p : ℚ) : ℚ :=
  quantileSorted (List.insertionSort (· ≤ ·) l) p

/-- Label and icon of one `PRIORITY_LEVELS` entry (src/config.py). -/
structure PriorityInfo where
  label : String
  icon : String
  deriving DecidableEq, Repr

/-- `PRIORITY_LEVELS["High Priority"]` (the fields the processor uses). -/
def PRIORITY_HIGH : PriorityInfo := ⟨"High Priority", "🔴"⟩

/-- `PRIORITY_LEVELS["Medium Priority"]`. -/
def PRIORITY_MEDIUM : PriorityInfo := ⟨"Medium Priority", "🟠"⟩

/-- `PRIORITY_LEVELS["Low Priority"]`. -/
def PRIORITY_LOW : PriorityInfo := ⟨"Low Priority", "🟢"⟩

/-- `assign_priority` inside `identify_high_impact_users`: compare one row's
cost against the two percentile thresholds. -/
def assignPriority (high_threshold medium_threshold cost : ℚ) : PriorityInfo :=
  if cost ≥ high_threshold then PRIORITY_HIGH
  else if cost ≥ medium_threshold then PRIORITY_MEDIUM
  else PRIORITY_LOW

/-- The label → numeric rank map building the `PRIORITY_LEVEL` column
(`.map({High: 3, Medium: 2, Low: 1})`; an unmapped label becomes NaN). -/
def priorityLevelOf (label : String) : Cell :=
  if label = "High Priority" then .num 3
  else if label = "Medium Priority" then .num 2
  else if label = "Low Priority" then .num 1
  else .null

/-- `DataProcessor.identify_high_impact_users` (finops variant): percentile
thresholds are recomputed from the cost column of the DataFrame passed in,
then every row gets `PRIORITY_LABEL`, `PRIORITY_ICON` and `PRIORITY_LEVEL`
columns. The source copies the input (`users_df.copy()`) before writing, so
the caller's table is not modified. -/
def identify_high_impact_users (users_df : Table) (cost_column user_column : String)
    (high_cost_threshold_percentile : ℚ := 90)
    (medium_cost_threshold_percentile : ℚ := 70) : Table :=
  if users_df.isEmpty || !users_df.hasCol cost_column || !users_df.hasCol user_column then
    { cols := [user_column, cost_column, "PRIORITY_LEVEL", "PRIORITY_LABEL", "PRIORITY_ICON"],
      rows := [] }
  else
    let ci := users_df.colIdx cost_column
    let costs := users_df.rows.map fun r => cellQ (cellAt r ci)
    let high_threshold := quantile costs (high_cost_threshold_percentile / 100)
    let medium_threshold := quantile costs (medium_cost_threshold_percentile / 100)
    { cols := users_df.cols ++ ["PRIORITY_LABEL", "PRIORITY_ICON", "PRIORITY_LEVEL"],
      rows := users_df.rows.map fun r =>
        let p := assignPriority high_threshold medium_threshold (cellQ (cellAt r ci))
        r ++ [.str p.label, .str p.icon, priorityLevelOf p.label] }

/-- Ascending comparison modelling how pandas orders the distinct key values
of a pivot's index and columns (numbers, then strings; the cited calls never
mix kinds within one key column). -/
def cellLe (a b : Cell) : Prop :=
  (match a, b with
    | .num x, .num y => decide (x ≤ y)
    | .num _, _ => true
    | .str _, .num _ => false
    | .str x, .str y => decide (x ≤ y)
    | .str _, .null => true
    | .null, .null => true
    | .null, _ => false) = true

instance : DecidableRel cellLe := fun _ _ => inferInstanceAs (Decidable (_ = true))

/-- The grid produced by `pivot_for_heatmap`: the distinct row-key values, the
distinct column-key values, and the matrix of aggregated cell values. -/
structure PivotGrid where
  index : List Cell
  columns : List Cell
  values : List (List ℚ)
  deriving DecidableEq, Repr

/-- Sum-aggregated pivot cell: total of the numeric value-column entries of
the rows whose index key and column key both match. -/
def pivotCellSum (rows : List (List Cell)) (ii ci vi : Nat) (rk ck : Cell) : ℚ :=
  ((rows.filter fun r => decide (cellAt r ii = rk) && decide (cellAt r ci = ck)).map
    (rowKey vi)).sum

/-- `DataProcessor.pivot_for_heatmap` (finops variant) with the `"sum"`
aggregation its callers use: `pivot_table` keeps exactly the distinct key
values occurring in the data (sorted), sums matching rows per cell, and
`fillna(0)` turns combinations with no contributing row into 0 — for sum
aggregation that is exactly the empty sum. On empty or column-missing input
the source returns `None`. The second component is the caller's table after
the call (the value column is coerced in place, as in `get_top_n_values`). -/
def pivot_for_heatmap (df : Table) (index_col column_col value_col : String) :
    Option PivotGrid × Table :=
  if df.isEmpty || !(df.hasCol index_col && df.hasCol column_col && df.hasCol value_col) then
    (none, df)
  else
    let df1 := coerceColumn df value_col
    let ii := df1.colIdx index_col
    let ci := df1.colIdx column_col
    let vi := df1.colIdx value_col
    let idxKeys := List.insertionSort cellLe ((df1.rows.map fun r => cellAt r ii).dedup)
    let colKeys := List.insertionSort cellLe ((df1.rows.map fun r => cellAt r ci).dedup)
    (some { index := idxKeys, columns := colKeys,
            values := idxKeys.map fun rk => colKeys.map fun ck =>
              pivotCellSum df1.rows ii ci vi rk ck },
     df1)

/-! ## Query resolution
(src/fin/finops_dashboard/src/filter_manager.py and the two
`_execute_snowpark_query_cached` variants.) -/

/-- A single-quote character (written via its code point). -/
def sq : String := String.mk [Char.ofNat 39]

/-- Table names from src/config.py. -/
def QUERY_HISTORY_TABLE : String := "SNOWFLAKE.ACCOUNT_USAGE.QUERY_HISTORY"

/-- Table name from src/config.py. -/
def METERING_HISTORY_TABLE : String := "SNOWFLAKE.ACCOUNT_USAGE.METERING_HISTORY"

/-- Table name from src/config.py. -/
def LOGIN_HISTORY_TABLE : String := "SNOWFLAKE.ACCOUNT_USAGE.LOGIN_HISTORY"

/-- Table name from src/config.py. -/
def WAREHOUSE_METERING_HISTORY_TABLE : String := "SNOWFLAKE.ACCOUNT_USAGE.WAREHOUSE_METERING_HISTORY"

/-- Read a format field: split the character stream at the first closing
brace, returning the field name and the rest of the stream. -/
def splitAtClose : List Char → Option (List Char × List Char)
  | [] => none
  | c :: rest =>
    if c = Char.ofNat 125 then some ([], rest)
    else (splitAtClose rest).map fun p => (c :: p.1, p.2)

/-- Python `str.format` over a template, fuelled (each step consumes at least
one input character, so the `length + 1` fuel given below never runs out): a
single left-to-right pass replacing each brace-delimited field with the
mapping's value — substituted values are not rescanned; an unknown field name
or an unterminated field fails (KeyError/ValueError in the source). -/
def formatCharsFuel (m : List (String × String)) : Nat → List Char → Option (List Char)
  | 0, _ => none
  | _ + 1, [] => some []
  | fuel + 1, c :: rest =>
    if c = Char.ofNat 123 then
      match splitAtClose rest with
      | none => none
      | some (name, after) =>
        match m.find? fun kv => kv.1 == String.mk name with
        | none => none
        | some kv => (formatCharsFuel m fuel after).map fun tail => kv.2.data ++ tail
    else
      (formatCharsFuel m fuel rest).map fun tail => c :: tail

/-- Python `str.format` on a whole template string. -/
def formatChars (m : List (String × String)) (l : List Char) : Option (List Char) :=
  formatCharsFuel m (l.length + 1) l

/-- The `query_text.format(query_history_table=..., ..., **query_params)` call
in the finops `_execute_snowpark_query_cached`: the resolved query string is
built by direct text substitution of every parameter — including the
caller-supplied `user_name_filter_clause` — and the query is then executed
with NO bound-values list (`session.sql(final_query)`). -/
def formatQuery (query_text : String) (query_params : List (String × String)) :
    Option String :=
  (formatChars ([("query_history_table", QUERY_HISTORY_TABLE),
      ("metering_history_table", METERING_HISTORY_TABLE),
      ("warehouse_metering_history_table", WAREHOUSE_METERING_HISTORY_TABLE),
      ("login_history_table", LOGIN_HISTORY_TABLE)] ++ query_params)
    query_text.data).map String.mk

/-- The user-filter construction in `FilterManager.get_time_and_user_filters`:
for a selected user other than "All Users" (and non-empty, Python truthiness)
it builds the SQL fragment `AND USER_NAME = '<selected>'` by f-string
interpolation; returns (user_name_filter_clause, user_name). -/
def mkUserFilter (selected_user : String) : String × Option String :=
  if selected_user ≠ "" ∧ selected_user ≠ "All Users" then
    ("AND USER_NAME = " ++ sq ++ selected_user ++ sq, some selected_user)
  else ("", none)

/-- Python `str.replace` on one input character list: replace every
non-overlapping occurrence of the pattern `p :: ps`, scanning left to right. -/
def replaceAllAux (p : Char) (ps rep : List Char) : List Char → List Char
  | [] => []
  | c :: rest =>
    if (p :: ps).isPrefixOf (c :: rest) then
      rep ++ replaceAllAux p ps rep (rest.drop ps.length)
    else
      c :: replaceAllAux p ps rep rest
termination_by l => l.length
decreasing_by
  · simp only [List.length_drop, List.length_cons]
    omega
  · simp only [List.length_cons]
    omega

/-- Python `str.replace sub by rep` (no-op for an empty pattern, which no
call site produces). -/
def replaceAll (s pat rep : String) : String :=
  match pat.data with
  | [] => s
  | p :: ps => String.mk (replaceAllAux p ps rep.data s.data)

/-- The parameter dictionary of the second DataFetcher variant
(src/fin/src/data_fetcher.py): the four date keys plus `user_name`; a key
absent from the dict or bound to Python `None` is `none`. -/
structure FinParams where
  start_date : Option String
  end_date : Option String
  prev_start_date : Option String
  prev_end_date : Option String
  user_name : Option String
  deriving DecidableEq, Repr

/-- One date substitution of that variant: a present date value replaces its
quoted placeholder `'\x7bkey\x7d'` with the quoted date text. -/
def dateSub (s key : String) (v : Option String) : String :=
  match v with
  | some d => replaceAll s (sq ++ "\x7b" ++ key ++ "\x7d" ++ sq) (sq ++ d ++ sq)
  | none => s

/-- `_execute_snowpark_query_cached` of the second DataFetcher variant
(src/fin/src/data_fetcher.py), resolution part: trusted table names and date
strings are substituted textually, while a present `user_name` parameter only
toggles the fixed clause `AND user_name = ?` into the query and appends the
raw value to the bound-values list. Returns (final_sql, bind_params). -/
def resolveFin (query_text : String) (params : Option FinParams) : String × List String :=
  let s0 := replaceAll query_text "{query_history_table}" QUERY_HISTORY_TABLE
  let s1 := replaceAll s0 "{metering_history_table}" METERING_HISTORY_TABLE
  let s2 := replaceAll s1 "{login_history_table}" LOGIN_HISTORY_TABLE
  let s3 := replaceAll s2 "{warehouse_metering_history_table}" WAREHOUSE_METERING_HISTORY_TABLE
  match params with
  | none => (s3, [])
  | some p =>
    let s4 := dateSub s3 "start_date" p.start_date
    let s5 := dateSub s4 "end_date" p.end_date
    let s6 := dateSub s5 "prev_start_date" p.prev_start_date
    let s7 := dateSub s6 "prev_end_date" p.prev_end_date
    let cb : String × List String :=
      match p.user_name with
      | some u => ("AND user_name = ?", [u])
      | none => ("", [])
    (replaceAll s7 "{user_name_filter_clause}" cb.1, cb.2)

/-! ## Spec-side definitions and concrete example data -/

/-- The bucketing rule as the spec words it: High when the value is at least
the high-percentile threshold, Medium when at least the medium one (and below
High), Low otherwise. Used to compare `identify_high_impact_users` against
the spec's wording. -/
def specBucket (hiT medT c : ℚ) : String :=
  if c ≥ hiT then "High Priority"
  else if c ≥ medT then "Medium Priority"
  else "Low Priority"

/-- Icon attached to each spec bucket (from `PRIORITY_LEVELS`). -/
def bucketIcon (label : String) : String :=
  if label = "High Priority" then "🔴"
  else if label = "Medium Priority" then "🟠"
  else "🟢"

/-- Five users with costs 1..5 (a small uniform distribution). -/
def uniformCosts : Table :=
  ⟨["U", "C"],
   [[.str "u1", .num 1], [.str "u2", .num 2], [.str "u3", .num 3],
    [.str "u4", .num 4], [.str "u5", .num 5]]⟩

/-- Five users with skewed costs 5, 10, 20, 40, 80. -/
def skewedCosts : Table :=
  ⟨["U", "C"],
   [[.str "u1", .num 5], [.str "u2", .num 10], [.str "u3", .num 20],
    [.str "u4", .num 40], [.str "u5", .num 80]]⟩

/-- Top-n example: five names with values 10, 4, 3, 2, 1 (no ties). -/
def topNEx : Table :=
  ⟨["U", "V"],
   [[.str "a", .num 10], [.str "b", .num 4], [.str "c", .num 3],
    [.str "d", .num 2], [.str "e", .num 1]]⟩

/-- The spec's top-n example: values 10, 8, 6, 4, 2. -/
def topNSpecEx : Table :=
  ⟨["U", "V"],
   [[.str "a", .num 10], [.str "b", .num 8], [.str "c", .num 6],
    [.str "d", .num 4], [.str "e", .num 2]]⟩

/-- Sparse hourly rows: one day with entries only for hours 3 and 7. -/
def sparseHours : Table :=
  ⟨["D", "H", "V"],
   [[.str "d1", .num 3, .num 1], [.str "d1", .num 7, .num 2]]⟩

/-- A table whose value column holds one non-numeric cell. -/
def mutEx : Table :=
  ⟨["U", "V"],
   [[.str "a", .str "oops"], [.str "b", .num 1], [.str "c", .num 2]]⟩

/-- The spec's injection probe: `x'; DROP TABLE t; --`. -/
def malicious : String := "x" ++ sq ++ "; DROP TABLE t; --"

/-- A representative finops template using a structural placeholder and the
user filter clause placeholder (cf. queries/user_360_queries.py). -/
def exTemplate : String :=
  "SELECT COUNT(*) FROM {query_history_table} WHERE 1=1 {user_name_filter_clause}"

/-- The resolved text of `exTemplate` up to the filter clause. -/
def exResolvedPrefix : String :=
  "SELECT COUNT(*) FROM SNOWFLAKE.ACCOUNT_USAGE.QUERY_HISTORY WHERE 1=1 "

end FinOps

namespace FinOps

/-- **C3.** The percentage-delta function maps (0,0) to 0, (c>0, 0) to the
capped sentinel +100, (c<0, 0) to -100, and for previous ≠ 0 computes
`(current - previous) / previous * 100`; in particular delta(150,100) = 50. -/
theorem C3_delta_edge_cases :
    calculate_percentage_delta (some 0) (some 0) = 0 ∧
    (∀ c : ℚ, 0 < c → calculate_percentage_delta (some c) (some 0) = 100) ∧
    (∀ c : ℚ, c < 0 → calculate_percentage_delta (some c) (some 0) = -100) ∧
    (∀ c p : ℚ, p ≠ 0 → calculate_percentage_delta (some c) (some p) = (c - p) / p * 100) ∧
    calculate_percentage_delta (some 150) (some 100) = 50 := by
  refine ⟨by norm_num [calculate_percentage_delta, safeFloat], ?_, ?_, ?_, ?_⟩
  · intro c hc
    simp [calculate_percentage_delta, safeFloat, hc, hc.ne']
  · intro c hc
    simp [calculate_percentage_delta, safeFloat, hc.ne, hc.asymm]
  · intro c p hp
    simp [calculate_percentage_delta, safeFloat, hp]
  · norm_num [calculate_percentage_delta, safeFloat]

/-- Witness for C3 at concrete inputs: delta(5,0) = 100, delta(-5,0) = -100,
delta(150,100) = 50. -/
theorem C3_delta_edge_cases_witness :
    calculate_percentage_delta (some 5) (some 0) = 100 ∧
    calculate_percentage_delta (some (-5)) (some 0) = -100 ∧
    calculate_percentage_delta (some 150) (some 100) = 50 := by
  refine ⟨C3_delta_edge_cases.2.1 5 (by norm_num), C3_delta_edge_cases.2.2.1 (-5) (by norm_num),
    C3_delta_edge_cases.2.2.2.2⟩

/-- **C8.** For a key with no stored entry: the first call runs the executor;
a second call while `now - created_at ≤ ttl` returns the stored value without
running it and leaves the store unchanged; a call once more than `ttl` has
elapsed since the entry's creation runs the executor again. -/
theorem C8_cache_round_trip (st : CacheState) (k : String) (ttl t0 t1 t2 : Nat)
    (f : Unit → ExecOutcome) (hfresh : st.lookup k = none)
    (h1 : t1 - t0 ≤ ttl) (h2 : ttl < t2 - t0) :
    (cached_execute st t0 ttl k f).2.2 = true ∧
    cached_execute (cached_execute st t0 ttl k f).2.1 t1 ttl k f
      = ((cached_execute st t0 ttl k f).1, (cached_execute st t0 ttl k f).2.1, false) ∧
    (cached_execute (cached_execute st t0 ttl k f).2.1 t2 ttl k f).2.2 = true := by
  simp only [cached_execute, hfresh]
  refine ⟨trivial, ?_, ?_⟩
  · simp [List.lookup, h1]
  · simp [List.lookup, Nat.not_le.mpr h2]

/-- Witness for C8: a concrete round trip with an empty store, ttl 10,
call times 0, 5 and 20, and an executor returning a one-cell table. -/
theorem C8_cache_round_trip_witness :
    (List.lookup "k" ([] : CacheState) = none) ∧ (5 - 0 ≤ 10) ∧ (10 < 20 - 0) ∧
    ((cached_execute [] 0 10 "k" (fun _ => .ok ⟨["A"], [[.num 1]]⟩)).2.2 = true ∧
     cached_execute (cached_execute [] 0 10 "k" (fun _ => .ok ⟨["A"], [[.num 1]]⟩)).2.1 5 10 "k"
        (fun _ => .ok ⟨["A"], [[.num 1]]⟩)
       = ((cached_execute [] 0 10 "k" (fun _ => .ok ⟨["A"], [[.num 1]]⟩)).1,
          (cached_execute [] 0 10 "k" (fun _ => .ok ⟨["A"], [[.num 1]]⟩)).2.1, false) ∧
     (cached_execute (cached_execute [] 0 10 "k" (fun _ => .ok ⟨["A"], [[.num 1]]⟩)).2.1 20 10 "k"
        (fun _ => .ok ⟨["A"], [[.num 1]]⟩)).2.2 = true) :=
  ⟨rfl, by norm_num, by norm_num,
    C8_cache_round_trip [] "k" 10 0 5 20 (fun _ => .ok ⟨["A"], [[.num 1]]⟩) rfl
      (by norm_num) (by norm_num)⟩

/-- **C2, counterexample.** A failing executor call DOES leave a cache entry
(storing `none`, because `handle_errors` converts the exception to `None`
before `st.cache_data` stores the return value), and a second call with the
same key within the ttl does NOT re-invoke the executor — contradicting "no
cache entry is written" and "a subsequent call re-invokes the compute
function". -/
theorem C2_counterexample :
    ((cached_execute [] 0 3600 "q" (fun _ => .err "SQL error")).2.1.lookup "q"
        = some ⟨none, 0⟩) ∧
    ((cached_execute (cached_execute [] 0 3600 "q" (fun _ => .err "SQL error")).2.1
        10 3600 "q" (fun _ => .err "SQL error")).2.2 = false) := by
  constructor <;> rfl

/-- **C2 (amended).** If the executor fails on a key with no fresh entry, the
caller receives `None` (the failure does not propagate as an exception), an
entry storing `None` is written for that key, and a subsequent call with the
same key within the ttl returns the cached `None` without re-invoking the
executor. -/
theorem C2_failure_cached (st : CacheState) (k msg : String) (ttl t0 t1 : Nat)
    (f : Unit → ExecOutcome) (hf : f () = .err msg) (hfresh : st.lookup k = none)
    (h1 : t1 - t0 ≤ ttl) :
    cached_execute st t0 ttl k f = (none, (k, ⟨none, t0⟩) :: st, true) ∧
    cached_execute ((k, ⟨none, t0⟩) :: st) t1 ttl k f
      = (none, (k, ⟨none, t0⟩) :: st, false) := by
  constructor
  · simp [cached_execute, hfresh, handle_errors, hf]
  · simp [cached_execute, List.lookup, h1]

/-- Witness for the amended C2 at a concrete failing executor. -/
theorem C2_failure_cached_witness :
    ((fun _ => ExecOutcome.err "boom") () = ExecOutcome.err "boom") ∧
    (List.lookup "q" ([] : CacheState) = none) ∧ (10 - 0 ≤ 3600) ∧
    (cached_execute [] 0 3600 "q" (fun _ => ExecOutcome.err "boom")
        = (none, ("q", ⟨none, 0⟩) :: [], true) ∧
     cached_execute (("q", ⟨none, 0⟩) :: []) 10 3600 "q" (fun _ => ExecOutcome.err "boom")
        = (none, ("q", ⟨none, 0⟩) :: [], false)) :=
  ⟨rfl, rfl, by norm_num,
    C2_failure_cached [] "q" "boom" 3600 0 10 (fun _ => ExecOutcome.err "boom") rfl rfl
      (by norm_num)⟩

/-- **C10.** `fetch_metric_value` returns `None` when the underlying fetch
failed (`None` came back) or the fetched table is empty (no rows or no
columns), and otherwise returns exactly the first row's first-column cell. -/
theorem C10_fetch_metric_value :
    fetch_metric_value none = none ∧
    (∀ cols : List String, fetch_metric_value (some ⟨cols, []⟩) = none) ∧
    (∀ rows : List (List Cell), fetch_metric_value (some ⟨[], rows⟩) = none) ∧
    (∀ (c : String) (cols : List String) (r : List Cell) (rest : List (List Cell)),
      fetch_metric_value (some ⟨c :: cols, r :: rest⟩) = some (cellAt r 0)) := by
  refine ⟨rfl, fun cols => ?_, fun rows => ?_, fun c cols r rest => ?_⟩
  · simp [fetch_metric_value, Table.isEmpty]
  · simp [fetch_metric_value, Table.isEmpty]
  · simp [fetch_metric_value, Table.isEmpty]

/-- Witness for C10: concrete empty-table and non-empty-table fetches. -/
theorem C10_fetch_metric_value_witness :
    fetch_metric_value (some ⟨["V"], []⟩) = none ∧
    fetch_metric_value (some ⟨[], [[Cell.num 7]]⟩) = none ∧
    fetch_metric_value (some ⟨["V"], [[Cell.num 7], [Cell.num 8]]⟩)
      = some (cellAt [Cell.num 7] 0) :=
  ⟨C10_fetch_metric_value.2.1 ["V"], C10_fetch_metric_value.2.2.1 [[Cell.num 7]],
    C10_fetch_metric_value.2.2.2 "V" [] [Cell.num 7] [[Cell.num 8]]⟩

/-- **C1, counterexample.** In the finops variant, feeding the selected-user
value `x'; DROP TABLE t; --` through `FilterManager` (which builds the filter
clause by f-string interpolation) and `_execute_snowpark_query_cached` (which
substitutes it by `str.format`) produces a resolved query string that
CONTAINS the untrusted value as a substring — and this variant passes no
bound-values list at all — contradicting "that value never appears
concatenated into the final resolved query string". -/
theorem C1_counterexample :
    formatQuery exTemplate [("user_name_filter_clause", (mkUserFilter malicious).1)]
      = some (exResolvedPrefix ++ (mkUserFilter malicious).1) ∧
    ∃ pre post : List Char,
      (exResolvedPrefix ++ (mkUserFilter malicious).1).data
        = pre ++ malicious.data ++ post :=
  ⟨by decide,
   ⟨(exResolvedPrefix ++ "AND USER_NAME = " ++ sq).data, sq.data, by decide⟩⟩

/-- **C1 (amended).** In the parameter-binding variant
(src/fin/src/data_fetcher.py), the resolved query string does not depend on
the content of the `user_name` value (its presence only toggles the fixed
marker clause `AND user_name = ?`), and the value appears exactly as the
entry of the bound-values list passed alongside the query. -/
theorem C1_bound_value_containment (q : String) (p : FinParams) (u1 u2 : String) :
    (resolveFin q (some { p with user_name := some u1 })).1
      = (resolveFin q (some { p with user_name := some u2 })).1 ∧
    (resolveFin q (some { p with user_name := some u1 })).2 = [u1] := by
  constructor <;> rfl

/-- **C4, counterexample.** On names a..e with values 10, 4, 3, 2, 1 and
n = 2, the "Others" sum (3+2+1 = 6) exceeds the second-kept value 4, and the
final re-sort in `get_top_n_values` places the Others row in the middle:
the output is [a = 10, Others = 6, b = 4], so the output is NOT "the n rows
with the largest values in descending order followed by the Others row". -/
theorem C4_counterexample :
    ((get_top_n_values topNEx "V" "U" 2 "Others").1.rows.map fun r => cellAt r 0)
      = [.str "a", .str "Others", .str "b"] ∧
    ((get_top_n_values topNEx "V" "U" 2 "Others").1.rows.getLast?.map fun r => cellAt r 0)
      ≠ some (.str "Others") := by
  constructor <;> with_unfolding_all decide

/-- **C5, counterexample.** `pivot_for_heatmap` has no notion of a declared
column-key range: pivoting rows whose hour column only contains 3 and 7
yields a grid with exactly the 2 columns present in the data, not 24. -/
theorem C5_counterexample :
    ((pivot_for_heatmap sparseHours "D" "H" "V").1.map PivotGrid.columns)
      = some [.num 3, .num 7] ∧
    ((pivot_for_heatmap sparseHours "D" "H" "V").1.map fun g => g.columns.length)
      ≠ some 24 := by
  constructor <;> decide

/-- **C7, counterexample.** On an empty input table `pivot_for_heatmap`
returns `None` — not an explicitly-empty typed table — and `None` is exactly
the value `handle_errors` produces for an execution failure, so the "no data"
outcome of the pivot is NOT distinct from an execution failure. -/
theorem C7_counterexample :
    (pivot_for_heatmap ⟨["H", "D", "V"], []⟩ "H" "D" "V").1 = none ∧
    handle_errors (fun _ => .err "SQL error") = none := by
  constructor <;> rfl

/-- **C9, counterexample.** `get_top_n_values` writes the coerced value
column back into the caller's DataFrame: after the call on a table holding
one non-numeric value cell, the caller's table has that cell overwritten
with 0 — the operation is not pure in its input. -/
theorem C9_counterexample :
    (get_top_n_values mutEx "V" "U" 2 "Others").2 ≠ mutEx ∧
    (get_top_n_values mutEx "V" "U" 2 "Others").2
      = ⟨["U", "V"], [[.str "a", .num 0], [.str "b", .num 1], [.str "c", .num 2]]⟩ := by
  constructor <;> decide

/-- **C7 (amended).** On empty or required-column-missing input,
`identify_high_impact_users` and `get_top_n_values` return an explicitly-empty
typed table carrying the expected columns and never raise (each operation is a
total function of its input), while `pivot_for_heatmap` returns the `None`
sentinel — the same value an execution failure yields after `handle_errors` —
and on all three guard paths the caller's table is left untouched. -/
theorem C7_no_data_outcomes :
    (∀ (df : Table) (cc uc : String) (hp mp : ℚ),
      df.isEmpty = true ∨ df.hasCol cc = false ∨ df.hasCol uc = false →
      identify_high_impact_users df cc uc hp mp
        = { cols := [uc, cc, "PRIORITY_LEVEL", "PRIORITY_LABEL", "PRIORITY_ICON"],
            rows := [] }) ∧
    (∀ (df : Table) (vc nc : String) (n : Nat) (ol : String),
      df.isEmpty = true ∨ df.hasCol vc = false ∨ df.hasCol nc = false →
      get_top_n_values df vc nc n ol = ({ cols := [nc, vc], rows := [] }, df)) ∧
    (∀ (df : Table) (ic cc vc : String),
      df.isEmpty = true ∨ df.hasCol ic = false ∨ df.hasCol cc = false ∨ df.hasCol vc = false →
      pivot_for_heatmap df ic cc vc = (none, df)) := by
  refine ⟨fun df cc uc hp mp h => ?_, fun df vc nc n ol h => ?_, fun df ic cc vc h => ?_⟩
  · rcases h with h | h | h <;> simp [identify_high_impact_users, h]
  · rcases h with h | h | h <;> simp [get_top_n_values, h]
  · rcases h with h | h | h | h <;> simp [pivot_for_heatmap, h]

/-- Witness for the amended C7: an empty input table for the bucketing and
the pivot, and a value-column-missing table for the top-n fold. -/
theorem C7_no_data_outcomes_witness :
    (identify_high_impact_users ⟨["U", "C"], []⟩ "C" "U" 90 70
      = { cols := ["U", "C", "PRIORITY_LEVEL", "PRIORITY_LABEL", "PRIORITY_ICON"],
          rows := [] }) ∧
    (get_top_n_values ⟨["U"], [[Cell.str "a"]]⟩ "V" "U" 3 "Others"
      = ({ cols := ["U", "V"], rows := [] }, ⟨["U"], [[Cell.str "a"]]⟩)) ∧
    (pivot_for_heatmap ⟨["D", "H", "V"], []⟩ "D" "H" "V"
      = (none, ⟨["D", "H", "V"], []⟩)) :=
  ⟨C7_no_data_outcomes.1 ⟨["U", "C"], []⟩ "C" "U" 90 70 (Or.inl rfl),
   C7_no_data_outcomes.2.1 ⟨["U"], [[Cell.str "a"]]⟩ "V" "U" 3 "Others"
     (Or.inr (Or.inl rfl)),
   C7_no_data_outcomes.2.2 ⟨["D", "H", "V"], []⟩ "D" "H" "V" (Or.inl rfl)⟩

/-- Setting position `i` back to the cell already there leaves a row
unchanged (a list-level helper for the in-place column write). -/
theorem set_cellAt_self (r : List Cell) (i : Nat) (hi : i < r.length) :
    r.set i (cellAt r i) = r := by
  induction r generalizing i with
  | nil => simp at hi
  | cons a t ih =>
    cases i with
    | zero => simp [cellAt]
    | succ j =>
      simp only [List.set_cons_succ, cellAt, List.getD_cons_succ, List.cons.injEq, true_and]
      exact ih j (by simpa using hi)

/-- If coercing a row's value cell is the identity, writing the coerced cell
back leaves the row unchanged (also when the row is too short to hold the
position, where the write is a no-op). -/
theorem set_coerce_self {r : List Cell} {i : Nat}
    (h : coerceCell (cellAt r i) = cellAt r i) :
    r.set i (coerceCell (cellAt r i)) = r := by
  rcases lt_or_le i r.length with hlt | hle
  · rw [h]
    exact set_cellAt_self r i hlt
  · exact List.set_eq_of_length_le hle

/-- If every value-column cell of a table is already numeric, the in-place
column coercion leaves the table unchanged. -/
theorem coerceColumn_eq_self {t : Table} {c : String}
    (h : ∀ r ∈ t.rows, coerceCell (cellAt r (t.colIdx c)) = cellAt r (t.colIdx c)) :
    coerceColumn t c = t := by
  unfold coerceColumn
  cases t with
  | mk cols rows =>
    simp only [Table.mk.injEq, true_and]
    calc rows.map (fun r => r.set (Table.colIdx ⟨cols, rows⟩ c)
            (coerceCell (cellAt r (Table.colIdx ⟨cols, rows⟩ c))))
        = rows.map id := List.map_congr_left fun r hr => set_coerce_self (h r hr)
      _ = rows := List.map_id rows

/-- **C9 (amended).** `identify_high_impact_users` copies its input before
writing, so the caller's table is untouched (the model returns a fresh table).
`get_top_n_values` and `pivot_for_heatmap` write the coerced numeric value
column back into the caller's DataFrame; whenever every value-column cell is
already numeric — the case for the numeric results the dashboard feeds them —
that write is the identity and the caller's table is unchanged by either
call, the results being returned as new tables. -/
theorem C9_purity_on_numeric_columns (df : Table) (vc nc ic cc : String) (n : Nat)
    (ol : String)
    (h : ∀ r ∈ df.rows, coerceCell (cellAt r (df.colIdx vc)) = cellAt r (df.colIdx vc)) :
    (get_top_n_values df vc nc n ol).2 = df ∧
    (pivot_for_heatmap df ic cc vc).2 = df := by
  have hc := coerceColumn_eq_self (c := vc) h
  constructor
  · simp only [get_top_n_values, hc]
    split <;> rfl
  · simp only [pivot_for_heatmap, hc]
    split <;> rfl

/-- Witness for the amended C9: the all-numeric value column of `topNEx` is
left untouched by both operations. -/
theorem C9_purity_on_numeric_columns_witness :
    (get_top_n_values topNEx "V" "U" 2 "Others").2 = topNEx ∧
    (pivot_for_heatmap topNEx "U" "U" "V").2 = topNEx :=
  C9_purity_on_numeric_columns topNEx "V" "U" "U" "U" 2 "Others" (by decide)

/-- `assign_priority` implements the spec's bucketing rule, with the icon
determined by the bucket. -/
theorem assignPriority_eq_spec (hiT medT c : ℚ) :
    assignPriority hiT medT c
      = ⟨specBucket hiT medT c, bucketIcon (specBucket hiT medT c)⟩ := by
  unfold assignPriority specBucket bucketIcon PRIORITY_HIGH PRIORITY_MEDIUM PRIORITY_LOW
  split_ifs <;> simp_all

/-- **C6.** Priority bucketing recomputes both thresholds on every call as
percentiles (linear-interpolation quantiles) of the cost column of the table
passed in — the closed final conjunct exhibits the same cost 5 classified
High against one data set and Low against another, so no fixed absolute
threshold exists — and labels each row High when its cost is at least the
high-percentile threshold, Medium when at least the medium-percentile
threshold (and below High), and Low otherwise, appending label, icon and rank
columns to a copy of the input. -/
theorem C6_priority_percentile_bucketing (df : Table) (cc uc : String) (hp mp : ℚ)
    (hne : df.isEmpty = false) (hcc : df.hasCol cc = true) (huc : df.hasCol uc = true) :
    ((identify_high_impact_users df cc uc hp mp).cols
        = df.cols ++ ["PRIORITY_LABEL", "PRIORITY_ICON", "PRIORITY_LEVEL"]) ∧
    (∀ i : Nat,
      (identify_high_impact_users df cc uc hp mp).rows.get? i
        = (df.rows.get? i).map fun r =>
            let lab := specBucket
              (quantile (df.rows.map fun s => cellQ (cellAt s (df.colIdx cc))) (hp / 100))
              (quantile (df.rows.map fun s => cellQ (cellAt s (df.colIdx cc))) (mp / 100))
              (cellQ (cellAt r (df.colIdx cc)))
            r ++ [.str lab, .str (bucketIcon lab), priorityLevelOf lab]) ∧
    (((identify_high_impact_users uniformCosts "C" "U" 90 70).rows.getD 4 []).getD 2 .null
        = .str "High Priority" ∧
     ((identify_high_impact_users skewedCosts "C" "U" 90 70).rows.getD 0 []).getD 2 .null
        = .str "Low Priority") := by
  refine ⟨?_, fun i => ?_, ?_, ?_⟩
  · simp [identify_high_impact_users, hne, hcc, huc]
  · simp [identify_high_impact_users, hne, hcc, huc, List.getElem?_map, assignPriority_eq_spec]
  · with_unfolding_all decide
  · with_unfolding_all decide

/-- Witness for C6: the uniform five-row cost table satisfies the guards, and
the bucketing columns are appended as stated. -/
theorem C6_priority_percentile_bucketing_witness :
    uniformCosts.isEmpty = false ∧
    ((identify_high_impact_users uniformCosts "C" "U" 90 70).cols
        = uniformCosts.cols ++ ["PRIORITY_LABEL", "PRIORITY_ICON", "PRIORITY_LEVEL"]) :=
  ⟨rfl, (C6_priority_percentile_bucketing uniformCosts "C" "U" 90 70 rfl rfl rfl).1⟩

/-- Numeric coercion does not change the numeric reading of a cell. -/
theorem cellQ_coerce (x : Cell) : cellQ (coerceCell x) = cellQ x := by
  cases x <;> rfl

/-- The numeric key of a row is unchanged by the in-place value coercion. -/
theorem rowKey_set_coerce (r : List Cell) (vi : Nat) :
    rowKey vi (r.set vi (coerceCell (cellAt r vi))) = rowKey vi r := by
  rcases Nat.lt_or_ge vi r.length with hlt | hge
  · have h1 : cellAt (r.set vi (coerceCell (cellAt r vi))) vi = coerceCell (cellAt r vi) := by
      simp [cellAt, List.getD_eq_getElem?_getD, List.getElem?_set_self hlt]
    rw [rowKey, h1, cellQ_coerce, rowKey]
  · rw [List.set_eq_of_length_le hge]

/-- The value-column totals of a table before and after the in-place column
coercion agree. -/
theorem sum_rowKey_coerceColumn (df : Table) (vc : String) :
    ((coerceColumn df vc).rows.map (rowKey (df.colIdx vc))).sum
      = (df.rows.map (rowKey (df.colIdx vc))).sum := by
  unfold coerceColumn
  simp only [List.map_map]
  congr 1
  exact List.map_congr_left fun r _ => rowKey_set_coerce r _

/-- The numeric key of the synthetic Others row is the folded sum (the name
and value columns must be distinct, as in every call site). -/
theorem rowKey_othersRow (cols : List String) (nc vc ol : String) (s : ℚ)
    (hvc : cols.contains vc = true) (hvnc : vc ≠ nc) :
    rowKey (cols.indexOf vc) (othersRow cols nc vc ol s) = s := by
  have hmem : vc ∈ cols := by simpa using hvc
  unfold rowKey othersRow cellAt
  rw [List.getD_eq_getElem?_getD, List.getElem?_map, List.getElem?_indexOf hmem]
  simp [hvnc, cellQ]

/-- The rows `get_top_n_values` returns on the main path: the top-n slice of
the descending sort plus the Others row, re-sorted descending. -/
theorem get_top_n_values_rows_eq (df : Table) (vc nc ol : String) (n : Nat)
    (hne : df.isEmpty = false) (hvc : df.hasCol vc = true) (hnc : df.hasCol nc = true)
    (hn : n < df.rows.length) :
    (get_top_n_values df vc nc n ol).1.rows
      = List.insertionSort (rowGE (df.colIdx vc))
          ((List.insertionSort (rowGE (df.colIdx vc)) (coerceColumn df vc).rows).take n
            ++ [othersRow df.cols nc vc ol
                ((((List.insertionSort (rowGE (df.colIdx vc)) (coerceColumn df vc).rows).drop n).map
                  (rowKey (df.colIdx vc))).sum)]) := by
  simp [get_top_n_values, hne, hvc, hnc, hn, coerceColumn, Table.colIdx]

/-- **C4 (amended).** With more rows than n, `get_top_n_values` returns the n
rows with the largest values together with one synthetic Others row whose
value is the sum of all remaining rows' values, the whole output being sorted
descending by value — the final re-sort places the Others row by its value
rather than always last — and the sum of the output value column equals the
sum of the input value column. -/
theorem C4_top_n_with_overflow (df : Table) (vc nc ol : String) (n : Nat)
    (hne : df.isEmpty = false) (hvc : df.hasCol vc = true) (hnc : df.hasCol nc = true)
    (hn : n < df.rows.length) (hvnc : vc ≠ nc) :
    List.Perm (get_top_n_values df vc nc n ol).1.rows
        ((List.insertionSort (rowGE (df.colIdx vc)) (coerceColumn df vc).rows).take n
          ++ [othersRow df.cols nc vc ol
              ((((List.insertionSort (rowGE (df.colIdx vc)) (coerceColumn df vc).rows).drop n).map
                (rowKey (df.colIdx vc))).sum)]) ∧
    List.Sorted (rowGE (df.colIdx vc)) (get_top_n_values df vc nc n ol).1.rows ∧
    ((get_top_n_values df vc nc n ol).1.rows.map (rowKey (df.colIdx vc))).sum
      = (df.rows.map (rowKey (df.colIdx vc))).sum := by
  have hout := get_top_n_values_rows_eq df vc nc ol n hne hvc hnc hn
  refine ⟨?_, ?_, ?_⟩
  · rw [hout]
    exact List.perm_insertionSort _ _
  · rw [hout]
    exact List.sorted_insertionSort _ _
  · rw [hout]
    rw [List.Perm.sum_eq ((List.perm_insertionSort _ _).map (rowKey (df.colIdx vc)))]
    rw [List.map_append, List.sum_append]
    have hoth : rowKey (df.colIdx vc)
        (othersRow df.cols nc vc ol
          ((((List.insertionSort (rowGE (df.colIdx vc)) (coerceColumn df vc).rows).drop n).map
            (rowKey (df.colIdx vc))).sum))
        = (((List.insertionSort (rowGE (df.colIdx vc)) (coerceColumn df vc).rows).drop n).map
            (rowKey (df.colIdx vc))).sum :=
      rowKey_othersRow df.cols nc vc ol _ hvc hvnc
    rw [List.map_singleton, List.sum_singleton, hoth, List.map_take, List.map_drop,
      List.sum_take_add_sum_drop]
    rw [List.Perm.sum_eq ((List.perm_insertionSort _ _).map (rowKey (df.colIdx vc)))]
    exact sum_rowKey_coerceColumn df vc

/-- Witness for the amended C4 at the spec's example: values 10, 8, 6, 4, 2
with n = 3 give output rows [10, 8, 6, Others = 6] (the tie between the kept
6 and the Others 6 resolved by the stable sort), whose value total 30 equals
the input total. -/
theorem C4_top_n_with_overflow_witness :
    (topNSpecEx.isEmpty = false ∧ 3 < topNSpecEx.rows.length ∧ "V" ≠ "U") ∧
    ((get_top_n_values topNSpecEx "V" "U" 3 "Others").1.rows.map
        (rowKey (topNSpecEx.colIdx "V"))).sum
      = (topNSpecEx.rows.map (rowKey (topNSpecEx.colIdx "V"))).sum ∧
    (get_top_n_values topNSpecEx "V" "U" 3 "Others").1.rows
      = [[Cell.str "a", Cell.num 10], [Cell.str "b", Cell.num 8], [Cell.str "c", Cell.num 6],
         [Cell.str "Others", Cell.num 6]] :=
  ⟨⟨rfl, by decide, by decide⟩,
   (C4_top_n_with_overflow topNSpecEx "V" "U" "Others" 3 rfl rfl rfl (by decide)
      (by decide)).2.2,
   by with_unfolding_all rfl⟩

/-- Reading a row position other than the one written is unaffected. -/
theorem cellAt_set_ne {i j : Nat} (hij : j ≠ i) (r : List Cell) (x : Cell) :
    cellAt (r.set i x) j = cellAt r j := by
  simp [cellAt, List.getD_eq_getElem?_getD, List.getElem?_set_ne (Ne.symm hij)]

/-- Distinct column names present in a table sit at distinct positions. -/
theorem colIdx_ne_of_hasCol {t : Table} {c d : String} (hc : t.hasCol c = true)
    (hne : c ≠ d) : t.colIdx c ≠ t.colIdx d := by
  intro heq
  have hmem : c ∈ t.cols := by simpa [Table.hasCol] using hc
  by_cases hd : d ∈ t.cols
  · exact hne ((List.indexOf_inj hmem hd).mp heq)
  · have hlen : t.cols.indexOf d = t.cols.length := List.indexOf_eq_length.mpr hd
    have hlt : t.cols.indexOf c < t.cols.length := List.indexOf_lt_length.mpr hmem
    rw [Table.colIdx, Table.colIdx] at heq
    omega

/-- Key columns other than the value column read the same before and after
the in-place value coercion. -/
theorem keyMap_coerceColumn (df : Table) (vc : String) (k : Nat)
    (hk : k ≠ df.colIdx vc) :
    ((coerceColumn df vc).rows.map fun r => cellAt r k)
      = df.rows.map fun r => cellAt r k := by
  unfold coerceColumn
  simp only [List.map_map]
  exact List.map_congr_left fun r _ => cellAt_set_ne hk r _

/-- Pivot cells computed over the coerced rows equal those computed over the
original rows (key columns distinct from the value column). -/
theorem pivotCellSum_coerceColumn (df : Table) (vc : String) (ii ci : Nat)
    (hii : ii ≠ df.colIdx vc) (hci : ci ≠ df.colIdx vc) (rk ck : Cell) :
    pivotCellSum (coerceColumn df vc).rows ii ci (df.colIdx vc) rk ck
      = pivotCellSum df.rows ii ci (df.colIdx vc) rk ck := by
  unfold pivotCellSum coerceColumn
  rw [List.filter_map, List.map_map]
  have hfilter : df.rows.filter
      ((fun r => decide (cellAt r ii = rk) && decide (cellAt r ci = ck)) ∘
        fun r => r.set (df.colIdx vc) (coerceCell (cellAt r (df.colIdx vc))))
      = df.rows.filter fun r => decide (cellAt r ii = rk) && decide (cellAt r ci = ck) :=
    List.filter_congr fun r _ => by
      simp [Function.comp, cellAt_set_ne hii, cellAt_set_ne hci]
  rw [hfilter]
  congr 1
  exact List.map_congr_left fun r _ => rowKey_set_coerce r _

/-- The grid `pivot_for_heatmap` returns on the main path. -/
theorem pivot_for_heatmap_eq (df : Table) (ic cc vc : String)
    (hne : df.isEmpty = false) (hic : df.hasCol ic = true) (hcc : df.hasCol cc = true)
    (hvc : df.hasCol vc = true) :
    (pivot_for_heatmap df ic cc vc).1
      = some { index := List.insertionSort cellLe
                 (((coerceColumn df vc).rows.map fun r => cellAt r (df.colIdx ic)).dedup),
               columns := List.insertionSort cellLe
                 (((coerceColumn df vc).rows.map fun r => cellAt r (df.colIdx cc)).dedup),
               values := (List.insertionSort cellLe
                   (((coerceColumn df vc).rows.map fun r => cellAt r (df.colIdx ic)).dedup)).map
                 fun rk => (List.insertionSort cellLe
                     (((coerceColumn df vc).rows.map fun r => cellAt r (df.colIdx cc)).dedup)).map
                   fun ck => pivotCellSum (coerceColumn df vc).rows (df.colIdx ic)
                     (df.colIdx cc) (df.colIdx vc) rk ck } := by
  simp [pivot_for_heatmap, hne, hic, hcc, hvc, coerceColumn, Table.colIdx]

/-- **C5 (amended).** The pivot's grid is built from the data alone: its
index and columns are exactly the distinct key values occurring in the input
rows (there is no declared-range padding, so absent column-key values do not
appear), each cell is the sum of the value column over the input rows
matching both keys, and a (row, column) combination with no matching input
row gets the zero fill. -/
theorem C5_pivot_grid_from_data (df : Table) (ic cc vc : String)
    (hne : df.isEmpty = false) (hic : df.hasCol ic = true) (hcc : df.hasCol cc = true)
    (hvc : df.hasCol vc = true) (hicvc : ic ≠ vc) (hccvc : cc ≠ vc) :
    ∃ g : PivotGrid, (pivot_for_heatmap df ic cc vc).1 = some g ∧
      (∀ x : Cell, x ∈ g.index ↔ x ∈ df.rows.map fun r => cellAt r (df.colIdx ic)) ∧
      (∀ c : Cell, c ∈ g.columns ↔ c ∈ df.rows.map fun r => cellAt r (df.colIdx cc)) ∧
      g.values = g.index.map (fun rk => g.columns.map fun ck =>
        pivotCellSum df.rows (df.colIdx ic) (df.colIdx cc) (df.colIdx vc) rk ck) ∧
      (∀ rk ck : Cell,
        (∀ r ∈ df.rows, ¬(cellAt r (df.colIdx ic) = rk ∧ cellAt r (df.colIdx cc) = ck)) →
        pivotCellSum df.rows (df.colIdx ic) (df.colIdx cc) (df.colIdx vc) rk ck = 0) := by
  have hii : df.colIdx ic ≠ df.colIdx vc := colIdx_ne_of_hasCol hic hicvc
  have hci : df.colIdx cc ≠ df.colIdx vc := colIdx_ne_of_hasCol hcc hccvc
  refine ⟨_, pivot_for_heatmap_eq df ic cc vc hne hic hcc hvc, ?_, ?_, ?_, ?_⟩
  · intro x
    rw [(List.perm_insertionSort cellLe _).mem_iff, List.mem_dedup,
      keyMap_coerceColumn df vc _ hii]
  · intro c
    rw [(List.perm_insertionSort cellLe _).mem_iff, List.mem_dedup,
      keyMap_coerceColumn df vc _ hci]
  · simp only [pivotCellSum_coerceColumn df vc _ _ hii hci]
  · intro rk ck hno
    unfold pivotCellSum
    have : df.rows.filter
        (fun r => decide (cellAt r (df.colIdx ic) = rk) &&
          decide (cellAt r (df.colIdx cc) = ck)) = [] := by
      rw [List.filter_eq_nil_iff]
      intro r hr
      simpa using hno r hr
    rw [this]
    rfl

/-- Witness for the amended C5 at the sparse-hours table: the grid exists,
hour 3 is a column because a row produced it, and the empty-combination fill
is 0 (instantiating the theorem at concrete keys). -/
theorem C5_pivot_grid_from_data_witness :
    (sparseHours.isEmpty = false ∧ "D" ≠ "V" ∧ "H" ≠ "V") ∧
    (∃ g : PivotGrid, (pivot_for_heatmap sparseHours "D" "H" "V").1 = some g ∧
      (∀ x : Cell, x ∈ g.index ↔ x ∈ sparseHours.rows.map fun r =>
        cellAt r (sparseHours.colIdx "D")) ∧
      (∀ c : Cell, c ∈ g.columns ↔ c ∈ sparseHours.rows.map fun r =>
        cellAt r (sparseHours.colIdx "H")) ∧
      g.values = g.index.map (fun rk => g.columns.map fun ck =>
        pivotCellSum sparseHours.rows (sparseHours.colIdx "D") (sparseHours.colIdx "H")
          (sparseHours.colIdx "V") rk ck) ∧
      (∀ rk ck : Cell,
        (∀ r ∈ sparseHours.rows, ¬(cellAt r (sparseHours.colIdx "D") = rk ∧
          cellAt r (sparseHours.colIdx "H") = ck)) →
        pivotCellSum sparseHours.rows (sparseHours.colIdx "D") (sparseHours.colIdx "H")
          (sparseHours.colIdx "V") rk ck = 0)) :=
  ⟨⟨rfl, by decide, by decide⟩,
   C5_pivot_grid_from_data sparseHours "D" "H" "V" rfl rfl rfl rfl (by decide) (by decide)⟩

end FinOps
